import Mathlib

/-!
# nativejson-benchmark: the verification and benchmark driver (`src/main.cpp`)

A shallow embedding of `main.cpp`.

* A backend (`const TestBase&`) is a record of functions of their arguments: every
  method is called through a `const` reference, the harness only observes the
  values returned, and the backend contract makes a backend a stateless capability
  set whose results are determined by the handle.
* A `void*` document handle is `Option Handle` (`none` is the null pointer), a
  `char*` result is `Option String` (`none` is the null pointer).
* Everything the driver does to the outside is recorded in a `World`: the backend
  calls (with the source line of the call site, the backend name, the argument and
  the returned value), the text handed to `printf` (buffering is not modelled), the
  lines written to the report file, the diagnostic files, the number of timer
  readings taken so far, and whether the process has been killed.
* The file system is an input of the verification: `canOpen name` tells whether
  `fopen(name, "wb")` returns a stream.  `Verify` never tests that result
  (main.cpp lines 127-129), so a diagnostic file that cannot be opened kills the
  process, and a killed process runs nothing more.
* `Timer` (timer.h) is an input: `timer k` is the elapsed time returned by the
  `k`-th reading of the run.  Durations live in an arbitrary linear order `D`.
* A `for` loop over a container is a `List.foldl` of its body; `continue` is an
  early return of the body; the trial loop is an iteration of its body.
* libc `free` of a returned string, `fflush`, and the opening and closing of the
  report file leave no trace in the model.
-/

namespace NativeJson

/-! ## Data model -/

/-- Trial count of the benchmark loops (main.cpp line 10). -/
def cTrialCount : Nat := 10

/-- Modelled from the spec: the `Stat` structure of test.h, a fixed set of ten
counters; the field names are the ones `PrintStat` reads (main.cpp lines 69-78).
Ten counters of one integer type leave no padding, so the `memcmp` of two `Stat`
values (main.cpp line 116) is the comparison of their ten fields. -/
structure Stat where
  objectCount : Nat
  arrayCount : Nat
  numberCount : Nat
  stringCount : Nat
  trueCount : Nat
  falseCount : Nat
  nullCount : Nat
  memberCount : Nat
  elementCount : Nat
  stringLength : Nat
deriving DecidableEq, Repr

/-- One corpus entry (main.cpp lines 12-16). -/
structure TestJson where
  filename : String
  json : String
  length : Nat
deriving DecidableEq, Repr

/-- The corpus `gTestJsons`. -/
abbrev TestJsonList := List TestJson

/-- A non-null document handle. -/
abbrev Handle := Nat

/-- Modelled from the spec: the class `TestBase` of test.h, with the methods
main.cpp calls on it: `GetName`, `Parse`, `Stringify`, `Prettify`, `Statistics`
(and `Free`, which returns nothing and only shows up as a recorded call).  The
methods other than `Parse` take a `void*`, so they can be called on the null
handle too. -/
structure TestBase where
  GetName : String
  Parse : String → Option Handle
  Stringify : Option Handle → Option String
  Prettify : Option Handle → Option String
  Statistics : Option Handle → Stat

/-- A recorded backend call: source line of the call site, name of the backend the
call was made on, arguments, returned value. -/
inductive Call where
  | Parse (line : Nat) (lib : String) (json : String) (ret : Option Handle)
  | Statistics (line : Nat) (lib : String) (dom : Option Handle) (ret : Stat)
  | Stringify (line : Nat) (lib : String) (dom : Option Handle) (ret : Option String)
  | Prettify (line : Nat) (lib : String) (dom : Option Handle) (ret : Option String)
  | Free (line : Nat) (lib : String) (dom : Option Handle)
deriving DecidableEq, Repr

/-- One item printed on stdout: plain text, or the line
`"%6.3f ms  %3.3f MB/s\n"` of a benchmark, kept as the two values it is computed
from (the minimum duration and the byte length of the entry). -/
inductive Out (D : Type) where
  | text (s : String)
  | timing (minDuration : D) (length : Nat)
deriving DecidableEq, Repr

/-- One line of the report file: the header, or a line
`"<type>,%s,%s,%f\n"` with its literal type label and its three arguments. -/
inductive ReportLine (D : Type) where
  | header (s : String)
  | row (type : String) (library : String) (filename : String) (ms : D)
deriving DecidableEq, Repr

/-- Everything observable of a run so far. -/
structure World (D : Type) where
  calls : List Call
  out : List (Out D)
  fp : List (ReportLine D)
  files : List (String × String)
  clock : Nat
  killed : Bool
deriving DecidableEq, Repr

/-- The world before anything has happened. -/
def World.init {D : Type} : World D :=
  { calls := [], out := [], fp := [], files := [], clock := 0, killed := false }

/-- Record a backend call. -/
def World.call {D : Type} (w : World D) (c : Call) : World D :=
  { w with calls := w.calls ++ [c] }

/-- The effect of `printf` with the already formatted text `s`. -/
def World.printf {D : Type} (w : World D) (s : String) : World D :=
  { w with out := w.out ++ [Out.text s] }

/-- The effect of `printf("%6.3f ms  %3.3f MB/s\n", minDuration, throughput)`. -/
def World.printTiming {D : Type} (w : World D) (minDuration : D) (length : Nat) : World D :=
  { w with out := w.out ++ [Out.timing minDuration length] }

/-- The effect of `fprintf(fp, ...)`. -/
def World.fprintf {D : Type} (w : World D) (l : ReportLine D) : World D :=
  { w with fp := w.fp ++ [l] }

/-- The effect of writing `data` to the file `name` once it has been opened. -/
def World.fwrite {D : Type} (w : World D) (name data : String) : World D :=
  { w with files := w.files ++ [(name, data)] }

/-- The process is killed. -/
def World.kill {D : Type} (w : World D) : World D :=
  { w with killed := true }

/-- One `Start` / `Stop` / `GetElapsedMilliseconds` round of a `Timer`: the next
reading of the run. -/
def World.elapsed {D : Type} (w : World D) (timer : Nat → D) : D × World D :=
  (timer w.clock, { w with clock := w.clock + 1 })

/-- The function `std::min(a, b)`: `b` when `b < a`, otherwise `a`. -/
def std_min {D : Type} [LinearOrder D] (a b : D) : D :=
  if b < a then b else a

/-- Left-justified `%-20s`: padded with blanks to 20 bytes. -/
def fmtLeft20 (s : String) : String :=
  s ++ String.mk (List.replicate (20 - s.utf8ByteSize) ' ')

/-- Right-justified `%10u` of `(unsigned)n`. -/
def fmtU10 (n : Nat) : String :=
  let d := Nat.repr (n % 2 ^ 32)
  String.mk (List.replicate (10 - d.length) ' ') ++ d

/-- The function `PrintStat` (main.cpp lines 68-79). -/
def PrintStat {D : Type} (stat : Stat) (w : World D) : World D :=
  let w := w.printf ("objectCount:  " ++ fmtU10 stat.objectCount ++ "\n")
  let w := w.printf ("arrayCount:   " ++ fmtU10 stat.arrayCount ++ "\n")
  let w := w.printf ("numberCount:  " ++ fmtU10 stat.numberCount ++ "\n")
  let w := w.printf ("stringCount:  " ++ fmtU10 stat.stringCount ++ "\n")
  let w := w.printf ("trueCount:    " ++ fmtU10 stat.trueCount ++ "\n")
  let w := w.printf ("falseCount:   " ++ fmtU10 stat.falseCount ++ "\n")
  let w := w.printf ("nullCount:    " ++ fmtU10 stat.nullCount ++ "\n")
  let w := w.printf ("memberCount:  " ++ fmtU10 stat.memberCount ++ "\n")
  let w := w.printf ("elementCount: " ++ fmtU10 stat.elementCount ++ "\n")
  let w := w.printf ("stringLength: " ++ fmtU10 stat.stringLength ++ "\n")
  w

/-! ## Verification -/

/-- Body of the loop of `Verify` (main.cpp lines 86-135) for the entry `itr`; the
state is the flag `failed` and the world.  In the mismatch branch the result of
`fopen` is not tested (lines 127-129): when the diagnostic file cannot be opened,
`fwrite` and `fclose` are handed the null pointer and the process is killed, before
`failed` is set at line 131. -/
def VerifyBody {D : Type} (canOpen : String → Bool) (test : TestBase) (s : Bool × World D)
    (itr : TestJson) : Bool × World D :=
  let failed := s.1
  let w := s.2
  let dom1 := test.Parse itr.json
  let w := w.call (Call.Parse 86 test.GetName itr.json dom1)
  if dom1 = none then
    let w := w.printf ("\nFailed to parse \x27" ++ itr.filename ++ "\x27\n")
    (true, w)
  else
    let stat1 := test.Statistics dom1
    let w := w.call (Call.Statistics 93 test.GetName dom1 stat1)
    let json1 := test.Stringify dom1
    let w := w.call (Call.Stringify 95 test.GetName dom1 json1)
    let w := w.call (Call.Free 96 test.GetName dom1)
    match json1 with
    | none =>
      let w := w.printf ("\nFailed to strinify \x27" ++ itr.filename ++ "\x27\n")
      (true, w)
    | some text1 =>
      let dom2 := test.Parse text1
      let w := w.call (Call.Parse 104 test.GetName text1 dom2)
      if dom2 = none then
        let w := w.printf ("\nFailed to parse \x27" ++ itr.filename ++ "\x27 2nd time\n")
        (true, w)
      else
        let stat2 := test.Statistics dom2
        let w := w.call (Call.Statistics 111 test.GetName dom2 stat2)
        let json2 := test.Stringify dom2
        let w := w.call (Call.Stringify 113 test.GetName dom2 json2)
        let w := w.call (Call.Free 114 test.GetName dom2)
        if stat1 ≠ stat2 then
          let w := w.printf
            ("\nFailed to rountrip \x27" ++ itr.filename ++ "\x27 (stats are different)\n")
          let w := w.printf "1st time\n--------\n"
          let w := PrintStat stat1 w
          let w := w.printf "\n2nd time\n--------\n"
          let w := PrintStat stat2 w
          let w := w.printf "\n"
          let filename := test.GetName ++ "_" ++ itr.filename
          if canOpen filename then
            let w := w.fwrite filename text1
            (true, w)
          else
            (failed, w.kill)
        else
          (failed, w)

/-- One turn of the loop of `Verify`: the body runs unless the process has been
killed. -/
def VerifyStep {D : Type} (canOpen : String → Bool) (test : TestBase) (s : Bool × World D)
    (itr : TestJson) : Bool × World D :=
  if s.2.killed then s else VerifyBody canOpen test s itr

/-- The function `Verify` (main.cpp lines 81-139); the verdict of line 138 is
printed unless the process has been killed in the loop. -/
def Verify {D : Type} (canOpen : String → Bool) (test : TestBase)
    (gTestJsons : TestJsonList) (w : World D) : World D :=
  let w := w.printf ("Verifying " ++ test.GetName ++ " ... ")
  let s := gTestJsons.foldl (VerifyStep canOpen test) (false, w)
  if s.2.killed then s.2 else s.2.printf (if s.1 then "Failed\n" else "OK\n")

/-- A registered backend as `TestList` holds it.  `TestList` is declared in test.h;
main.cpp dereferences an iterator of it twice to reach the backend (`**itr`, lines
144 and 278), so an element is a pointer to a `TestBase`: the address it holds and
the object found there. -/
structure TestBasePtr where
  address : Nat
  pointee : TestBase

/-- The list of registered backends, `TestManager::Instance().GetTests()`. -/
abbrev TestList := List TestBasePtr

/-- One turn of the loop of `VerifyAll`: `Verify` runs on the backend unless the
process has been killed. -/
def VerifyAllStep {D : Type} (canOpen : String → Bool) (gTestJsons : TestJsonList)
    (w : World D) (itr : TestBasePtr) : World D :=
  if w.killed then w else Verify canOpen itr.pointee gTestJsons w

/-- The function `VerifyAll` (main.cpp lines 141-147). -/
def VerifyAll {D : Type} (canOpen : String → Bool) (tests : TestList)
    (gTestJsons : TestJsonList) (w : World D) : World D :=
  let w := tests.foldl (VerifyAllStep canOpen gTestJsons) w
  if w.killed then w else w.printf "\n"

/-! ## Benchmark -/

/-- One trial of `BenchParse` (main.cpp lines 156-163). -/
def BenchParseTrial {D : Type} [LinearOrder D] (test : TestBase) (timer : Nat → D)
    (itr : TestJson) (s : D × World D) : D × World D :=
  let minDuration := s.1
  let w := s.2
  let dom := test.Parse itr.json
  let w := w.call (Call.Parse 158 test.GetName itr.json dom)
  let w := w.call (Call.Free 161 test.GetName dom)
  let r := w.elapsed timer
  (std_min minDuration r.1, r.2)

/-- Body of the loop of `BenchParse` (main.cpp lines 151-167). -/
def BenchParseBody {D : Type} [LinearOrder D] (test : TestBase) (timer : Nat → D)
    (DBL_MAX : D) (w : World D) (itr : TestJson) : World D :=
  let w := w.printf ("Parse     " ++ fmtLeft20 itr.filename ++ " ... ")
  let s := (BenchParseTrial test timer itr)^[cTrialCount] (DBL_MAX, w)
  let w := s.2.printTiming s.1 itr.length
  w.fprintf (ReportLine.row "Parse" test.GetName itr.filename s.1)

/-- The function `BenchParse` (main.cpp lines 149-169). -/
def BenchParse {D : Type} [LinearOrder D] (test : TestBase) (timer : Nat → D)
    (DBL_MAX : D) (gTestJsons : TestJsonList) (w : World D) : World D :=
  gTestJsons.foldl (BenchParseBody test timer DBL_MAX) w

/-- One trial of `BenchStringify` (main.cpp lines 180-187). -/
def BenchStringifyTrial {D : Type} [LinearOrder D] (test : TestBase) (timer : Nat → D)
    (dom : Option Handle) (s : D × World D) : D × World D :=
  let minDuration := s.1
  let w := s.2
  let json := test.Stringify dom
  let w := w.call (Call.Stringify 182 test.GetName dom json)
  let r := w.elapsed timer
  (std_min minDuration r.1, r.2)

/-- Body of the loop of `BenchStringify` (main.cpp lines 173-194). -/
def BenchStringifyBody {D : Type} [LinearOrder D] (test : TestBase) (timer : Nat → D)
    (DBL_MAX : D) (w : World D) (itr : TestJson) : World D :=
  let w := w.printf ("Stringify " ++ fmtLeft20 itr.filename ++ " ... ")
  let dom := test.Parse itr.json
  let w := w.call (Call.Parse 177 test.GetName itr.json dom)
  let s := (BenchStringifyTrial test timer dom)^[cTrialCount] (DBL_MAX, w)
  let w := s.2.call (Call.Free 190 test.GetName dom)
  let w := w.printTiming s.1 itr.length
  w.fprintf (ReportLine.row "Stringify" test.GetName itr.filename s.1)

/-- The function `BenchStringify` (main.cpp lines 171-196). -/
def BenchStringify {D : Type} [LinearOrder D] (test : TestBase) (timer : Nat → D)
    (DBL_MAX : D) (gTestJsons : TestJsonList) (w : World D) : World D :=
  gTestJsons.foldl (BenchStringifyBody test timer DBL_MAX) w

/-- One trial of `BenchPrettify` (main.cpp lines 207-214). -/
def BenchPrettifyTrial {D : Type} [LinearOrder D] (test : TestBase) (timer : Nat → D)
    (dom : Option Handle) (s : D × World D) : D × World D :=
  let minDuration := s.1
  let w := s.2
  let json := test.Prettify dom
  let w := w.call (Call.Prettify 209 test.GetName dom json)
  let r := w.elapsed timer
  (std_min minDuration r.1, r.2)

/-- Body of the loop of `BenchPrettify` (main.cpp lines 200-221); the report line
is written with the literal label of line 221. -/
def BenchPrettifyBody {D : Type} [LinearOrder D] (test : TestBase) (timer : Nat → D)
    (DBL_MAX : D) (w : World D) (itr : TestJson) : World D :=
  let w := w.printf ("Prettify  " ++ fmtLeft20 itr.filename ++ " ... ")
  let dom := test.Parse itr.json
  let w := w.call (Call.Parse 204 test.GetName itr.json dom)
  let s := (BenchPrettifyTrial test timer dom)^[cTrialCount] (DBL_MAX, w)
  let w := s.2.call (Call.Free 217 test.GetName dom)
  let w := w.printTiming s.1 itr.length
  w.fprintf (ReportLine.row "Stringify" test.GetName itr.filename s.1)

/-- The function `BenchPrettify` (main.cpp lines 198-223). -/
def BenchPrettify {D : Type} [LinearOrder D] (test : TestBase) (timer : Nat → D)
    (DBL_MAX : D) (gTestJsons : TestJsonList) (w : World D) : World D :=
  gTestJsons.foldl (BenchPrettifyBody test timer DBL_MAX) w

/-- One trial of `BenchStatistics` (main.cpp lines 234-240). -/
def BenchStatisticsTrial {D : Type} [LinearOrder D] (test : TestBase) (timer : Nat → D)
    (dom : Option Handle) (s : D × World D) : D × World D :=
  let minDuration := s.1
  let w := s.2
  let w := w.call (Call.Statistics 236 test.GetName dom (test.Statistics dom))
  let r := w.elapsed timer
  (std_min minDuration r.1, r.2)

/-- Body of the loop of `BenchStatistics` (main.cpp lines 227-247). -/
def BenchStatisticsBody {D : Type} [LinearOrder D] (test : TestBase) (timer : Nat → D)
    (DBL_MAX : D) (w : World D) (itr : TestJson) : World D :=
  let w := w.printf ("Statistics  " ++ fmtLeft20 itr.filename ++ " ... ")
  let dom := test.Parse itr.json
  let w := w.call (Call.Parse 231 test.GetName itr.json dom)
  let s := (BenchStatisticsTrial test timer dom)^[cTrialCount] (DBL_MAX, w)
  let w := s.2.call (Call.Free 243 test.GetName dom)
  let w := w.printTiming s.1 itr.length
  w.fprintf (ReportLine.row "Statistics" test.GetName itr.filename s.1)

/-- The function `BenchStatistics` (main.cpp lines 225-249). -/
def BenchStatistics {D : Type} [LinearOrder D] (test : TestBase) (timer : Nat → D)
    (DBL_MAX : D) (gTestJsons : TestJsonList) (w : World D) : World D :=
  gTestJsons.foldl (BenchStatisticsBody test timer DBL_MAX) w

/-- The function `Bench` (main.cpp lines 251-258). -/
def Bench {D : Type} [LinearOrder D] (test : TestBase) (timer : Nat → D)
    (DBL_MAX : D) (gTestJsons : TestJsonList) (w : World D) : World D :=
  let w := w.printf ("Benchmarking " ++ test.GetName ++ "\n")
  let w := BenchParse test timer DBL_MAX gTestJsons w
  let w := BenchStringify test timer DBL_MAX gTestJsons w
  let w := BenchPrettify test timer DBL_MAX gTestJsons w
  let w := BenchStatistics test timer DBL_MAX gTestJsons w
  w.printf "\n"

/-- The function `BenchAll` (main.cpp lines 260-283); the report file is taken to
have been opened, whichever of the three paths was chosen, and opening it for
writing empties it. -/
def BenchAll {D : Type} [LinearOrder D] (tests : TestList) (timer : Nat → D)
    (DBL_MAX : D) (gTestJsons : TestJsonList) (w : World D) : World D :=
  let w := { w with fp := [] }
  let w := w.fprintf (ReportLine.header "Type,Library,Filename,Time(ms)\n")
  let w := tests.foldl (fun w itr => Bench itr.pointee timer DBL_MAX gTestJsons w) w
  w.printf "\n"

/-- The call `std::sort(tests.begin(), tests.end())` of main.cpp line 292: no
comparison is passed, so the elements are ordered by `<` of the element type, and
for pointers that is the order of the addresses.  Distinct objects have distinct
addresses, so the sorted arrangement does not depend on the sorting algorithm. -/
def std_sort (tests : TestList) : TestList :=
  tests.insertionSort (fun a b => a.address ≤ b.address)

/-- The function `main` (main.cpp lines 285-298) from the point where `ReadFiles`
has filled the corpus `gTestJsons`; `FreeFiles` leaves no trace.  `BenchAll` runs
unless the process has been killed during the verification. -/
def main {D : Type} [LinearOrder D] (canOpen : String → Bool) (registered : TestList)
    (timer : Nat → D) (DBL_MAX : D) (gTestJsons : TestJsonList) : World D :=
  let tests := std_sort registered
  let w := VerifyAll canOpen tests gTestJsons World.init
  if w.killed then w else BenchAll tests timer DBL_MAX gTestJsons w

/-! ## Vocabulary of the properties -/

/-- Equality of two `Stat` values on all ten counters. -/
def Stat.sameCounters (a b : Stat) : Prop :=
  a.objectCount = b.objectCount ∧ a.arrayCount = b.arrayCount ∧
  a.numberCount = b.numberCount ∧ a.stringCount = b.stringCount ∧
  a.trueCount = b.trueCount ∧ a.falseCount = b.falseCount ∧
  a.nullCount = b.nullCount ∧ a.memberCount = b.memberCount ∧
  a.elementCount = b.elementCount ∧ a.stringLength = b.stringLength

/-- Equality on all ten counters can be computed. -/
instance Stat.sameCounters.decidable (a b : Stat) : Decidable (a.sameCounters b) := by
  unfold Stat.sameCounters
  infer_instance

/-- The round trip of one corpus entry succeeds: the first parse returns a handle,
its stringification returns a text, the parse of that text returns a handle, and
the statistics of the two handles agree on all ten counters. -/
def RoundTrips (test : TestBase) (x : TestJson) : Prop :=
  ∃ dom1 json1 dom2,
    test.Parse x.json = some dom1 ∧
    test.Stringify (some dom1) = some json1 ∧
    test.Parse json1 = some dom2 ∧
    (test.Statistics (some dom1)).sameCounters (test.Statistics (some dom2))

/-- Whether an entry round-trips can be computed. -/
instance RoundTrips.decidable (test : TestBase) (x : TestJson) :
    Decidable (RoundTrips test x) :=
  match h1 : test.Parse x.json with
  | none => isFalse (by rintro ⟨d1, j1, d2, e1, -⟩; rw [h1] at e1; cases e1)
  | some dom1 =>
    match h2 : test.Stringify (some dom1) with
    | none => isFalse (by
        rintro ⟨d1, j1, d2, e1, e2, -⟩
        rw [h1] at e1; cases e1; rw [h2] at e2; cases e2)
    | some json1 =>
      match h3 : test.Parse json1 with
      | none => isFalse (by
          rintro ⟨d1, j1, d2, e1, e2, e3, -⟩
          rw [h1] at e1; cases e1; rw [h2] at e2; cases e2; rw [h3] at e3; cases e3)
      | some dom2 =>
        if h4 : (test.Statistics (some dom1)).sameCounters (test.Statistics (some dom2)) then
          isTrue ⟨dom1, json1, dom2, h1, h2, h3, h4⟩
        else
          isFalse (by
            rintro ⟨d1, j1, d2, e1, e2, e3, e4⟩
            rw [h1] at e1; cases e1; rw [h2] at e2; cases e2; rw [h3] at e3; cases e3
            exact h4 e4)

/-- The round trip of one corpus entry ends in a mismatch: both parses and the
stringification succeed and the statistics of the two handles differ in some
counter. -/
def Mismatches (test : TestBase) (x : TestJson) : Prop :=
  ∃ dom1 json1 dom2,
    test.Parse x.json = some dom1 ∧
    test.Stringify (some dom1) = some json1 ∧
    test.Parse json1 = some dom2 ∧
    ¬ (test.Statistics (some dom1)).sameCounters (test.Statistics (some dom2))

/-- Whether the round trip of an entry ends in a mismatch can be computed. -/
instance Mismatches.decidable (test : TestBase) (x : TestJson) :
    Decidable (Mismatches test x) :=
  match h1 : test.Parse x.json with
  | none => isFalse (by rintro ⟨d1, j1, d2, e1, -⟩; rw [h1] at e1; cases e1)
  | some dom1 =>
    match h2 : test.Stringify (some dom1) with
    | none => isFalse (by
        rintro ⟨d1, j1, d2, e1, e2, -⟩
        rw [h1] at e1; cases e1; rw [h2] at e2; cases e2)
    | some json1 =>
      match h3 : test.Parse json1 with
      | none => isFalse (by
          rintro ⟨d1, j1, d2, e1, e2, e3, -⟩
          rw [h1] at e1; cases e1; rw [h2] at e2; cases e2; rw [h3] at e3; cases e3)
      | some dom2 =>
        if h4 : (test.Statistics (some dom1)).sameCounters (test.Statistics (some dom2)) then
          isFalse (by
            rintro ⟨d1, j1, d2, e1, e2, e3, e4⟩
            rw [h1] at e1; cases e1; rw [h2] at e2; cases e2; rw [h3] at e3; cases e3
            exact e4 h4)
        else
          isTrue ⟨dom1, json1, dom2, h1, h2, h3, h4⟩

/-- The name of the diagnostic file of an entry (main.cpp line 126). -/
def diagnosticName (test : TestBase) (x : TestJson) : String :=
  test.GetName ++ "_" ++ x.filename

/-- The entry kills the process: its round trip ends in a mismatch and its
diagnostic file cannot be opened. -/
def KillsAt (canOpen : String → Bool) (test : TestBase) (x : TestJson) : Prop :=
  Mismatches test x ∧ canOpen (diagnosticName test x) = false

/-- Whether an entry kills the process can be computed. -/
instance KillsAt.decidable (canOpen : String → Bool) (test : TestBase) (x : TestJson) :
    Decidable (KillsAt canOpen test x) := by
  unfold KillsAt
  infer_instance

/-- The first parses of `Verify` found in a call trace (the calls made at line 86),
each as the pair of the backend name and the text parsed. -/
def firstParses (calls : List Call) : List (String × String) :=
  calls.filterMap fun c =>
    match c with
    | Call.Parse line lib json _ => if line = 86 then some (lib, json) else none
    | _ => none

/-- The samples read by the `cTrialCount` trials that start at reading `k`. -/
def trialSamples {D : Type} (timer : Nat → D) (k : Nat) : List D :=
  (List.range cTrialCount).map fun t => timer (k + t)

/-- The time field of a report line. -/
def ReportLine.ms? {D : Type} : ReportLine D → Option D
  | ReportLine.header _ => none
  | ReportLine.row _ _ _ ms => some ms

/-- The backend name field of a report line. -/
def ReportLine.library? {D : Type} : ReportLine D → Option String
  | ReportLine.header _ => none
  | ReportLine.row _ library _ _ => some library

/-- The operation kind field of a report line. -/
def ReportLine.type? {D : Type} : ReportLine D → Option String
  | ReportLine.header _ => none
  | ReportLine.row type _ _ _ => some type

/-- A report line without its time. -/
def ReportLine.dropTime {D : Type} : ReportLine D → ReportLine Unit
  | ReportLine.header s => ReportLine.header s
  | ReportLine.row type library filename _ => ReportLine.row type library filename ()

/-- The report lines a step adds to the world it starts from. -/
def written {D : Type} (step : World D → World D) (w : World D) : List (ReportLine D) :=
  (step w).fp.drop w.fp.length

/-- The calls a step adds to the world it starts from. -/
def called {D : Type} (step : World D → World D) (w : World D) : List Call :=
  (step w).calls.drop w.calls.length

/-- The benchmark function `bench`, started in the world `w`, reports for the
`i`-th corpus entry a time that is one of the samples of that entry's trials and
is at most each of them. -/
def ReportsSmallestSample {D : Type} [LinearOrder D]
    (bench : TestBase → (Nat → D) → D → TestJsonList → World D → World D)
    (test : TestBase) (timer : Nat → D) (DBL_MAX : D) (gTestJsons : TestJsonList)
    (w : World D) (i : Nat) : Prop :=
  ∃ ms, ((written (bench test timer DBL_MAX gTestJsons) w)[i]?).bind ReportLine.ms? = some ms ∧
    ms ∈ trialSamples timer (w.clock + cTrialCount * i) ∧
    ∀ s ∈ trialSamples timer (w.clock + cTrialCount * i), ms ≤ s

/-- The handle discipline, one call at a time: `live` holds the handles obtained
from `Parse` and not yet freed, each with the name of the backend that returned it.
A parse that fails changes nothing, a parse that succeeds must return a handle that
is not live and makes it live; `Statistics`, `Stringify` and `Prettify` need a
handle that is live for the backend they are called on; `Free` needs such a handle
and ends its life.  Any call on the null handle is a violation, and `none` is the
result of a violation. -/
def handleStep (live : List (String × Handle)) : Call → Option (List (String × Handle))
  | Call.Parse _ _ _ none => some live
  | Call.Parse _ lib _ (some h) => if (lib, h) ∈ live then none else some ((lib, h) :: live)
  | Call.Statistics _ lib (some h) _ => if (lib, h) ∈ live then some live else none
  | Call.Stringify _ lib (some h) _ => if (lib, h) ∈ live then some live else none
  | Call.Prettify _ lib (some h) _ => if (lib, h) ∈ live then some live else none
  | Call.Free _ lib (some h) => if (lib, h) ∈ live then some (live.erase (lib, h)) else none
  | _ => none

/-- The handle discipline along a call trace: the live handles at its end, or
`none` when some call violates the discipline. -/
def handleRun (live : List (String × Handle)) : List Call → Option (List (String × Handle))
  | [] => some live
  | c :: rest =>
    match handleStep live c with
    | none => none
    | some live1 => handleRun live1 rest

/-- The minimum folded by the trials: `std_min` over `k` readings from reading `c`
on, starting from `m`. -/
def minOver {D : Type} [LinearOrder D] (timer : Nat → D) (m : D) (c : Nat) : Nat → D
  | 0 => m
  | k + 1 => minOver timer (std_min m (timer c)) (c + 1) k

/-- The report lines of one benchmark function: one line per corpus entry, in
corpus order, the entry at position `i` with the minimum of the readings
`c + cTrialCount * i` and following. -/
def rowsFrom {D : Type} [LinearOrder D] (type library : String) (timer : Nat → D)
    (DBL_MAX : D) (c : Nat) : TestJsonList → List (ReportLine D)
  | [] => []
  | x :: rest =>
    ReportLine.row type library x.filename (minOver timer DBL_MAX c cTrialCount) ::
      rowsFrom type library timer DBL_MAX (c + cTrialCount) rest

/-- The statistics of an empty object. -/
def statEmptyObject : Stat :=
  { objectCount := 1, arrayCount := 0, numberCount := 0, stringCount := 0, trueCount := 0,
    falseCount := 0, nullCount := 0, memberCount := 0, elementCount := 0, stringLength := 0 }

/-- The statistics reported for no document. -/
def statZero : Stat :=
  { objectCount := 0, arrayCount := 0, numberCount := 0, stringCount := 0, trueCount := 0,
    falseCount := 0, nullCount := 0, memberCount := 0, elementCount := 0, stringLength := 0 }

/-- A backend that accepts the text of an empty object and nothing else. -/
def demoTest (name : String) : TestBase :=
  { GetName := name
    Parse := fun json => if json = "\x7b\x7d" then some 1 else none
    Stringify := fun dom => dom.map fun _ => "\x7b\x7d"
    Prettify := fun dom => dom.map fun _ => "\x7b\n\x7d"
    Statistics := fun dom => if dom = none then statZero else statEmptyObject }

/-- A corpus of one well-formed entry. -/
def goodCorpus : TestJsonList :=
  [{ filename := "empty.json", json := "\x7b\x7d", length := 2 }]

/-- A corpus of one truncated entry. -/
def truncatedCorpus : TestJsonList :=
  [{ filename := "trunc.json", json := "\x7b\"a\":", length := 5 }]

/-- A timer whose readings are 7, 6, 5, 4, 3, 3, 3, ... -/
def demoTimer (k : Nat) : Nat := if k < 4 then 7 - k else 3

/-- A bound on the readings of `demoTimer`, standing for `DBL_MAX`. -/
def demoMax : Nat := 1000

/-- A backend that loses the content of an array: the text `[1]` is parsed to a
document whose stringification is `[]`. -/
def lossyTest (name : String) : TestBase :=
  { GetName := name
    Parse := fun json =>
      if json = "[1]" then some 1 else if json = "[]" then some 2 else
      if json = "\x7b\x7d" then some 3 else none
    Stringify := fun dom =>
      dom.map fun h => if h = 3 then "\x7b\x7d" else "[]"
    Prettify := fun dom =>
      dom.map fun h => if h = 3 then "\x7b\n\x7d" else "[\n]"
    Statistics := fun dom =>
      match dom with
      | some 1 => { statZero with arrayCount := 1, numberCount := 1, elementCount := 1 }
      | some 2 => { statZero with arrayCount := 1 }
      | some _ => statEmptyObject
      | none => statZero }

/-- A corpus of two entries: an array stored in a subdirectory, then an empty
object. -/
def nestedCorpus : TestJsonList :=
  [{ filename := "sub/x.json", json := "[1]", length := 3 },
   { filename := "empty.json", json := "\x7b\x7d", length := 2 }]

/-- A file system in which every file can be opened for writing. -/
def everyFileOpens (_ : String) : Bool := true

/-- A file system with no subdirectory to write into: a file whose name has a
slash cannot be opened. -/
def noSubdirectory (name : String) : Bool := !(name.toList.contains '/')

/-- Two registered backends, the lossy one visited first. -/
def lossyRegistry : TestList :=
  [{ address := 100, pointee := lossyTest "mm" }, { address := 200, pointee := demoTest "ok" }]

/-- Two registered backends: `"a"` registered first and stored at the higher
address, `"b"` registered second and stored at the lower address. -/
def demoRegistry : TestList :=
  [{ address := 200, pointee := demoTest "a" }, { address := 100, pointee := demoTest "b" }]

/-! ## Verification: lemmas and theorems -/

theorem Stat.sameCounters_iff (a b : Stat) : a.sameCounters b ↔ a = b := by
  cases a; cases b
  simp [Stat.sameCounters]

theorem handleRun_append (tr1 tr2 : List Call) (live : List (String × Handle)) :
    handleRun live (tr1 ++ tr2) = (handleRun live tr1).bind fun l => handleRun l tr2 := by
  induction tr1 generalizing live with
  | nil => simp [handleRun]
  | cons c rest ih =>
    simp only [List.cons_append, handleRun]
    cases handleStep live c with
    | none => simp
    | some l => simpa using ih l

theorem RoundTrips.not_mismatches {test : TestBase} {x : TestJson} (h : RoundTrips test x) :
    ¬ Mismatches test x := by
  obtain ⟨d1, j1, d2, h1, h2, h3, h4⟩ := h
  rintro ⟨e1, k1, e2, g1, g2, g3, g4⟩
  rw [h1] at g1; cases g1
  rw [h2] at g2; cases g2
  rw [h3] at g3; cases g3
  exact g4 h4

theorem PrintStat_calls {D : Type} (stat : Stat) (w : World D) :
    (PrintStat stat w).calls = w.calls := by
  simp [PrintStat, World.printf]

theorem PrintStat_killed {D : Type} (stat : Stat) (w : World D) :
    (PrintStat stat w).killed = w.killed := by
  simp [PrintStat, World.printf]

theorem VerifyBody_failed {D : Type} (canOpen : String → Bool) (test : TestBase)
    (s : Bool × World D) (itr : TestJson) (hk : ¬ KillsAt canOpen test itr) :
    (VerifyBody canOpen test s itr).1 = false ↔ s.1 = false ∧ RoundTrips test itr := by
  cases h1 : test.Parse itr.json with
  | none => simp [VerifyBody, RoundTrips, h1]
  | some d1 =>
    cases h2 : test.Stringify (some d1) with
    | none => simp [VerifyBody, RoundTrips, h1, h2]
    | some j1 =>
      cases h3 : test.Parse j1 with
      | none => simp [VerifyBody, RoundTrips, h1, h2, h3]
      | some d2 =>
        by_cases h4 : test.Statistics (some d1) = test.Statistics (some d2)
        · simp [VerifyBody, RoundTrips, h1, h2, h3, h4, Stat.sameCounters_iff]
        · have ho : canOpen (test.GetName ++ "_" ++ itr.filename) = true := by
            by_contra hc
            exact hk ⟨⟨d1, j1, d2, h1, h2, h3, by rwa [Stat.sameCounters_iff]⟩,
              by simpa [diagnosticName] using hc⟩
          simp [VerifyBody, RoundTrips, h1, h2, h3, h4, ho, Stat.sameCounters_iff]

theorem VerifyBody_killed {D : Type} (canOpen : String → Bool) (test : TestBase)
    (s : Bool × World D) (itr : TestJson) :
    (VerifyBody canOpen test s itr).2.killed = true ↔
      s.2.killed = true ∨ KillsAt canOpen test itr := by
  cases h1 : test.Parse itr.json with
  | none => simp [VerifyBody, KillsAt, Mismatches, h1, World.call, World.printf]
  | some d1 =>
    cases h2 : test.Stringify (some d1) with
    | none => simp [VerifyBody, KillsAt, Mismatches, h1, h2, World.call, World.printf]
    | some j1 =>
      cases h3 : test.Parse j1 with
      | none => simp [VerifyBody, KillsAt, Mismatches, h1, h2, h3, World.call, World.printf]
      | some d2 =>
        by_cases h4 : test.Statistics (some d1) = test.Statistics (some d2)
        · simp [VerifyBody, KillsAt, Mismatches, h1, h2, h3, h4, World.call,
            Stat.sameCounters_iff]
        · cases ho : canOpen (test.GetName ++ "_" ++ itr.filename) <;>
            simp [VerifyBody, KillsAt, Mismatches, diagnosticName, h1, h2, h3, h4, ho,
              World.call, World.printf, World.fwrite, World.kill, PrintStat_killed,
              Stat.sameCounters_iff]

theorem VerifyBody_out_killed {D : Type} (canOpen : String → Bool) (test : TestBase)
    (s : Bool × World D) (itr : TestJson) (hk : KillsAt canOpen test itr) :
    (VerifyBody canOpen test s itr).2.out.getLast? = some (Out.text "\n") := by
  obtain ⟨⟨d1, j1, d2, h1, h2, h3, h4⟩, ho⟩ := hk
  rw [Stat.sameCounters_iff] at h4
  rw [diagnosticName] at ho
  simp [VerifyBody, h1, h2, h3, h4, ho, World.kill, World.printf]

theorem VerifyBody_calls {D : Type} (canOpen : String → Bool) (test : TestBase)
    (s : Bool × World D) (itr : TestJson) :
    ∃ tr, (VerifyBody canOpen test s itr).2.calls = s.2.calls ++ tr ∧
      handleRun [] tr = some [] := by
  cases h1 : test.Parse itr.json with
  | none =>
    refine ⟨[Call.Parse 86 test.GetName itr.json none], ?_, ?_⟩ <;>
      simp [VerifyBody, h1, World.call, World.printf, handleRun, handleStep]
  | some d1 =>
    cases h2 : test.Stringify (some d1) with
    | none =>
      refine ⟨[Call.Parse 86 test.GetName itr.json (some d1),
        Call.Statistics 93 test.GetName (some d1) (test.Statistics (some d1)),
        Call.Stringify 95 test.GetName (some d1) none,
        Call.Free 96 test.GetName (some d1)], ?_, ?_⟩ <;>
        simp [VerifyBody, h1, h2, World.call, World.printf, handleRun, handleStep]
    | some j1 =>
      cases h3 : test.Parse j1 with
      | none =>
        refine ⟨[Call.Parse 86 test.GetName itr.json (some d1),
          Call.Statistics 93 test.GetName (some d1) (test.Statistics (some d1)),
          Call.Stringify 95 test.GetName (some d1) (some j1),
          Call.Free 96 test.GetName (some d1),
          Call.Parse 104 test.GetName j1 none], ?_, ?_⟩ <;>
          simp [VerifyBody, h1, h2, h3, World.call, World.printf, handleRun, handleStep]
      | some d2 =>
        refine ⟨[Call.Parse 86 test.GetName itr.json (some d1),
          Call.Statistics 93 test.GetName (some d1) (test.Statistics (some d1)),
          Call.Stringify 95 test.GetName (some d1) (some j1),
          Call.Free 96 test.GetName (some d1),
          Call.Parse 104 test.GetName j1 (some d2),
          Call.Statistics 111 test.GetName (some d2) (test.Statistics (some d2)),
          Call.Stringify 113 test.GetName (some d2) (test.Stringify (some d2)),
          Call.Free 114 test.GetName (some d2)], ?_, ?_⟩
        · by_cases h4 : test.Statistics (some d1) = test.Statistics (some d2)
          · simp [VerifyBody, h1, h2, h3, h4, World.call]
          · cases ho : canOpen (test.GetName ++ "_" ++ itr.filename) <;>
              simp [VerifyBody, h1, h2, h3, h4, ho, World.call, World.printf, World.fwrite,
                World.kill, PrintStat_calls]
        · simp [handleRun, handleStep]

theorem VerifyLoop_of_killed {D : Type} (canOpen : String → Bool) (test : TestBase)
    (gTestJsons : TestJsonList) (s : Bool × World D) (hs : s.2.killed = true) :
    gTestJsons.foldl (VerifyStep canOpen test) s = s := by
  induction gTestJsons with
  | nil => rfl
  | cons x rest ih => rw [List.foldl_cons, VerifyStep, if_pos hs, ih]

theorem VerifyLoop_calls {D : Type} (canOpen : String → Bool) (test : TestBase)
    (gTestJsons : TestJsonList) (s : Bool × World D) :
    ∃ tr, (gTestJsons.foldl (VerifyStep canOpen test) s).2.calls = s.2.calls ++ tr ∧
      handleRun [] tr = some [] := by
  induction gTestJsons generalizing s with
  | nil => exact ⟨[], by simp, by simp [handleRun]⟩
  | cons x rest ih =>
    rw [List.foldl_cons]
    by_cases hs : s.2.killed = true
    · rw [VerifyStep, if_pos hs]
      exact ih s
    · rw [VerifyStep, if_neg hs]
      obtain ⟨tr1, h1, h3⟩ := VerifyBody_calls canOpen test s x
      obtain ⟨tr2, k1, k3⟩ := ih (VerifyBody canOpen test s x)
      refine ⟨tr1 ++ tr2, ?_, ?_⟩
      · rw [k1, h1, List.append_assoc]
      · rw [handleRun_append, h3]; simpa using k3

theorem VerifyLoop_outcome {D : Type} (canOpen : String → Bool) (test : TestBase)
    (gTestJsons : TestJsonList) (s : Bool × World D) (hs : s.2.killed = false) :
    ((gTestJsons.foldl (VerifyStep canOpen test) s).2.killed = true ↔
        ∃ x ∈ gTestJsons, KillsAt canOpen test x) ∧
      ((gTestJsons.foldl (VerifyStep canOpen test) s).2.killed = false →
        ((gTestJsons.foldl (VerifyStep canOpen test) s).1 = false ↔
          s.1 = false ∧ ∀ x ∈ gTestJsons, RoundTrips test x)) ∧
      ((gTestJsons.foldl (VerifyStep canOpen test) s).2.killed = true →
        (gTestJsons.foldl (VerifyStep canOpen test) s).2.out.getLast? =
          some (Out.text "\n")) := by
  induction gTestJsons generalizing s with
  | nil => simp [hs]
  | cons x rest ih =>
    have hstep : VerifyStep canOpen test s x = VerifyBody canOpen test s x := by
      rw [VerifyStep, if_neg (by simp [hs])]
    rw [List.foldl_cons, hstep]
    have hb := VerifyBody_killed canOpen test s x
    by_cases hx : KillsAt canOpen test x
    · have hkill : (VerifyBody canOpen test s x).2.killed = true := hb.mpr (Or.inr hx)
      rw [VerifyLoop_of_killed canOpen test rest _ hkill]
      refine ⟨?_, ?_, ?_⟩
      · simp only [hkill, true_iff]
        exact ⟨x, List.mem_cons_self _ _, hx⟩
      · intro h
        rw [hkill] at h
        cases h
      · intro _
        exact VerifyBody_out_killed canOpen test s x hx
    · have halive : (VerifyBody canOpen test s x).2.killed = false := by
        cases h : (VerifyBody canOpen test s x).2.killed
        · rfl
        · rcases hb.mp h with h' | h'
          · rw [hs] at h'; cases h'
          · exact absurd h' hx
      obtain ⟨i1, i2, i3⟩ := ih (VerifyBody canOpen test s x) halive
      refine ⟨?_, ?_, i3⟩
      · rw [i1]
        simp only [List.mem_cons, exists_eq_or_imp, hx, false_or]
      · intro h
        rw [i2 h, VerifyBody_failed canOpen test s x hx]
        simp [and_assoc]

theorem World.printf_out {D : Type} (w : World D) (s : String) :
    (w.printf s).out = w.out ++ [Out.text s] := rfl

theorem World.printf_calls {D : Type} (w : World D) (s : String) :
    (w.printf s).calls = w.calls := rfl

theorem World.printf_killed {D : Type} (w : World D) (s : String) :
    (w.printf s).killed = w.killed := rfl

theorem Verify_calls {D : Type} (canOpen : String → Bool) (test : TestBase)
    (gTestJsons : TestJsonList) (w : World D) :
    ∃ tr, (Verify canOpen test gTestJsons w).calls = w.calls ++ tr ∧
      handleRun [] tr = some [] := by
  obtain ⟨tr, h1, h3⟩ := VerifyLoop_calls canOpen test gTestJsons
    (false, w.printf ("Verifying " ++ test.GetName ++ " ... "))
  refine ⟨tr, ?_, h3⟩
  rw [World.printf_calls] at h1
  simp only [Verify]
  split
  · exact h1
  · rw [World.printf_calls]; exact h1

/-- C1: started in a process that is alive, `Verify` ends its output with the
verdict `"OK\n"` exactly when every corpus entry round-trips (first parse non-null,
stringify non-null, second parse non-null, statistics equal on all ten counters).
It ends its output with `"Failed\n"` exactly when some entry does not round-trip
and the process survives the loop; the process is killed in the loop, and no
verdict is printed, exactly when some entry ends in a mismatch whose diagnostic
file cannot be opened. -/
theorem Verify_prints_OK_iff_every_entry_round_trips {D : Type} (canOpen : String → Bool)
    (test : TestBase) (gTestJsons : TestJsonList) (w : World D) (hw : w.killed = false) :
    ((Verify canOpen test gTestJsons w).out.getLast? = some (Out.text "OK\n") ↔
      ∀ x ∈ gTestJsons, RoundTrips test x) ∧
    ((Verify canOpen test gTestJsons w).out.getLast? = some (Out.text "Failed\n") ↔
      (¬ ∀ x ∈ gTestJsons, RoundTrips test x) ∧
        (Verify canOpen test gTestJsons w).killed = false) ∧
    ((Verify canOpen test gTestJsons w).killed = true ↔
      ∃ x ∈ gTestJsons, KillsAt canOpen test x) := by
  obtain ⟨i1, i2, i3⟩ := VerifyLoop_outcome canOpen test gTestJsons
    (false, w.printf ("Verifying " ++ test.GetName ++ " ... ")) hw
  simp only [Verify]
  cases hk : (gTestJsons.foldl (VerifyStep canOpen test)
      (false, w.printf ("Verifying " ++ test.GetName ++ " ... "))).2.killed with
  | true =>
    obtain ⟨x, hx, hkx⟩ := i1.mp hk
    have hnot : ¬ ∀ y ∈ gTestJsons, RoundTrips test y := fun h =>
      (h x hx).not_mismatches hkx.1
    simp only [if_true, i3 hk, hk]
    refine ⟨?_, ?_, ?_⟩
    · simp [hnot]
    · simp
    · simp only [true_iff]; exact ⟨x, hx, hkx⟩
  | false =>
    have hflag := i2 hk
    simp only [true_and] at hflag
    have hno : ¬ ∃ x ∈ gTestJsons, KillsAt canOpen test x := fun h => by
      rw [i1.mpr h] at hk; cases hk
    simp only [Bool.false_eq_true, if_false, World.printf_out, List.getLast?_concat,
      World.printf_killed, hk, hno, iff_false, and_true, not_false_eq_true, ← hflag]
    cases (gTestJsons.foldl (VerifyStep canOpen test)
      (false, w.printf ("Verifying " ++ test.GetName ++ " ... "))).1 <;> simp

/-- C1, at a concrete input: the lossy backend, the two-entry corpus whose first
entry lies in a subdirectory, and a file system with no subdirectory. -/
theorem Verify_prints_OK_iff_every_entry_round_trips_witness :
    (World.init : World Nat).killed = false ∧
    (((Verify noSubdirectory (lossyTest "mm") nestedCorpus
          (World.init : World Nat)).out.getLast? = some (Out.text "OK\n") ↔
        ∀ x ∈ nestedCorpus, RoundTrips (lossyTest "mm") x) ∧
      ((Verify noSubdirectory (lossyTest "mm") nestedCorpus
          (World.init : World Nat)).out.getLast? = some (Out.text "Failed\n") ↔
        (¬ ∀ x ∈ nestedCorpus, RoundTrips (lossyTest "mm") x) ∧
          (Verify noSubdirectory (lossyTest "mm") nestedCorpus
            (World.init : World Nat)).killed = false) ∧
      ((Verify noSubdirectory (lossyTest "mm") nestedCorpus
          (World.init : World Nat)).killed = true ↔
        ∃ x ∈ nestedCorpus, KillsAt noSubdirectory (lossyTest "mm") x)) :=
  ⟨rfl, Verify_prints_OK_iff_every_entry_round_trips noSubdirectory (lossyTest "mm")
    nestedCorpus World.init rfl⟩

/-- C10: the calls that `Verify` makes obey the handle discipline from no live
handle to no live handle: every handle returned by a parse is freed once through
the backend that returned it, nothing is freed twice or without having been
obtained, and `Statistics` and `Stringify` are only called on a handle that is
live, that is, obtained and not yet freed. -/
theorem Verify_frees_every_handle_once {D : Type} (canOpen : String → Bool)
    (test : TestBase) (gTestJsons : TestJsonList) (w : World D) :
    handleRun [] (called (Verify canOpen test gTestJsons) w) = some [] := by
  obtain ⟨tr, h1, h3⟩ := Verify_calls canOpen test gTestJsons w
  rw [called, h1, List.drop_left, h3]


/-! ## Benchmark: lemmas and theorems -/

theorem std_min_le_left {D : Type} [LinearOrder D] (a b : D) : std_min a b ≤ a := by
  unfold std_min
  split
  · exact le_of_lt ‹_›
  · exact le_rfl

theorem std_min_le_right {D : Type} [LinearOrder D] (a b : D) : std_min a b ≤ b := by
  unfold std_min
  split
  · exact le_rfl
  · exact not_lt.mp ‹_›

theorem std_min_eq {D : Type} [LinearOrder D] (a b : D) : std_min a b = a ∨ std_min a b = b := by
  unfold std_min
  split <;> simp

theorem minOver_le_start {D : Type} [LinearOrder D] (timer : Nat → D) (m : D) (c k : Nat) :
    minOver timer m c k ≤ m := by
  induction k generalizing m c with
  | zero => simp [minOver]
  | succ k ih => exact le_trans (ih _ _) (std_min_le_left _ _)

theorem minOver_le_sample {D : Type} [LinearOrder D] (timer : Nat → D) (m : D) (c k t : Nat)
    (ht : t < k) : minOver timer m c k ≤ timer (c + t) := by
  induction k generalizing m c t with
  | zero => omega
  | succ k ih =>
    cases t with
    | zero =>
      exact le_trans (minOver_le_start timer (std_min m (timer c)) (c + 1) k)
        (std_min_le_right _ _)
    | succ t =>
      have h := ih (std_min m (timer c)) (c + 1) t (by omega)
      have e : c + 1 + t = c + (t + 1) := by omega
      rw [e] at h
      exact h

theorem minOver_eq {D : Type} [LinearOrder D] (timer : Nat → D) (m : D) (c k : Nat) :
    minOver timer m c k = m ∨ ∃ t, t < k ∧ minOver timer m c k = timer (c + t) := by
  induction k generalizing m c with
  | zero => simp [minOver]
  | succ k ih =>
    rcases ih (std_min m (timer c)) (c + 1) with h | ⟨t, ht, h⟩
    · rcases std_min_eq m (timer c) with e | e
      · left; rw [minOver, h, e]
      · right; exact ⟨0, by omega, by rw [minOver, h, e]; rfl⟩
    · right
      refine ⟨t + 1, by omega, ?_⟩
      have e : c + 1 + t = c + (t + 1) := by omega
      rw [minOver, h, e]

theorem minOver_mem_samples {D : Type} [LinearOrder D] (timer : Nat → D) (DBL_MAX : D)
    (hmax : ∀ k, timer k ≤ DBL_MAX) (c : Nat) :
    minOver timer DBL_MAX c cTrialCount ∈ trialSamples timer c := by
  have hpos : 0 < cTrialCount := by decide
  simp only [trialSamples, List.mem_map, List.mem_range]
  rcases minOver_eq timer DBL_MAX c cTrialCount with h | ⟨t, ht, h⟩
  · refine ⟨0, hpos, ?_⟩
    have h1 := minOver_le_sample timer DBL_MAX c cTrialCount 0 hpos
    rw [h] at h1
    rw [h]
    exact le_antisymm (hmax _) h1
  · exact ⟨t, ht, h.symm⟩

theorem minOver_le_samples {D : Type} [LinearOrder D] (timer : Nat → D) (DBL_MAX : D)
    (c : Nat) : ∀ s ∈ trialSamples timer c, minOver timer DBL_MAX c cTrialCount ≤ s := by
  intro s hs
  simp only [trialSamples, List.mem_map, List.mem_range] at hs
  obtain ⟨t, ht, rfl⟩ := hs
  exact minOver_le_sample timer DBL_MAX c cTrialCount t ht

theorem iterate_trial {D : Type} [LinearOrder D] (timer : Nat → D)
    (step : D × World D → D × World D)
    (hstep : ∀ s, (step s).1 = std_min s.1 (timer s.2.clock) ∧
      (step s).2.clock = s.2.clock + 1 ∧ (step s).2.fp = s.2.fp) :
    ∀ (k : Nat) (s : D × World D), (step^[k] s).1 = minOver timer s.1 s.2.clock k ∧
      (step^[k] s).2.clock = s.2.clock + k ∧ (step^[k] s).2.fp = s.2.fp := by
  intro k
  induction k with
  | zero => intro s; simp [minOver]
  | succ k ih =>
    intro s
    obtain ⟨h1, h2, h3⟩ := hstep s
    obtain ⟨k1, k2, k3⟩ := ih (step s)
    rw [Function.iterate_succ_apply, k1, k2, k3, h1, h2, h3]
    refine ⟨rfl, by omega, rfl⟩

theorem benchLoop {D : Type} [LinearOrder D] (type library : String) (timer : Nat → D)
    (DBL_MAX : D) (body : World D → TestJson → World D)
    (hbody : ∀ w itr, (body w itr).fp = w.fp ++
        [ReportLine.row type library itr.filename (minOver timer DBL_MAX w.clock cTrialCount)] ∧
      (body w itr).clock = w.clock + cTrialCount) :
    ∀ (gTestJsons : TestJsonList) (w : World D),
      (gTestJsons.foldl body w).fp = w.fp ++ rowsFrom type library timer DBL_MAX w.clock gTestJsons ∧
      (gTestJsons.foldl body w).clock = w.clock + cTrialCount * gTestJsons.length := by
  intro gTestJsons
  induction gTestJsons with
  | nil => intro w; simp [rowsFrom]
  | cons x rest ih =>
    intro w
    obtain ⟨h1, h2⟩ := hbody w x
    obtain ⟨k1, k2⟩ := ih (body w x)
    rw [List.foldl_cons, k1, k2, h1, h2]
    refine ⟨by simp [rowsFrom], by simp [Nat.mul_add]; omega⟩

theorem World.call_fp {D : Type} (w : World D) (c : Call) : (w.call c).fp = w.fp := rfl

theorem World.call_clock {D : Type} (w : World D) (c : Call) :
    (w.call c).clock = w.clock := rfl

theorem World.printf_fp {D : Type} (w : World D) (s : String) : (w.printf s).fp = w.fp := rfl

theorem World.printf_clock {D : Type} (w : World D) (s : String) :
    (w.printf s).clock = w.clock := rfl

theorem World.printTiming_fp {D : Type} (w : World D) (m : D) (n : Nat) :
    (w.printTiming m n).fp = w.fp := rfl

theorem World.printTiming_clock {D : Type} (w : World D) (m : D) (n : Nat) :
    (w.printTiming m n).clock = w.clock := rfl

theorem World.fprintf_fp {D : Type} (w : World D) (l : ReportLine D) :
    (w.fprintf l).fp = w.fp ++ [l] := rfl

theorem World.fprintf_clock {D : Type} (w : World D) (l : ReportLine D) :
    (w.fprintf l).clock = w.clock := rfl

theorem BenchParse_fp {D : Type} [LinearOrder D] (test : TestBase) (timer : Nat → D)
    (DBL_MAX : D) (gTestJsons : TestJsonList) (w : World D) :
    (BenchParse test timer DBL_MAX gTestJsons w).fp =
        w.fp ++ rowsFrom "Parse" test.GetName timer DBL_MAX w.clock gTestJsons ∧
      (BenchParse test timer DBL_MAX gTestJsons w).clock =
        w.clock + cTrialCount * gTestJsons.length := by
  apply benchLoop
  intro w itr
  obtain ⟨h1, h2, h3⟩ := iterate_trial timer (BenchParseTrial test timer itr)
    (fun s => ⟨rfl, rfl, rfl⟩) cTrialCount
    (DBL_MAX, w.printf ("Parse     " ++ fmtLeft20 itr.filename ++ " ... "))
  simp only [BenchParseBody, World.fprintf_fp, World.fprintf_clock, World.printTiming_fp,
    World.printTiming_clock, World.call_fp, World.call_clock, World.printf_fp,
    World.printf_clock, h1, h2, h3, and_self]

theorem BenchStringify_fp {D : Type} [LinearOrder D] (test : TestBase) (timer : Nat → D)
    (DBL_MAX : D) (gTestJsons : TestJsonList) (w : World D) :
    (BenchStringify test timer DBL_MAX gTestJsons w).fp =
        w.fp ++ rowsFrom "Stringify" test.GetName timer DBL_MAX w.clock gTestJsons ∧
      (BenchStringify test timer DBL_MAX gTestJsons w).clock =
        w.clock + cTrialCount * gTestJsons.length := by
  apply benchLoop
  intro w itr
  obtain ⟨h1, h2, h3⟩ := iterate_trial timer
    (BenchStringifyTrial test timer (test.Parse itr.json))
    (fun s => ⟨rfl, rfl, rfl⟩) cTrialCount
    (DBL_MAX, (w.printf ("Stringify " ++ fmtLeft20 itr.filename ++ " ... ")).call
      (Call.Parse 177 test.GetName itr.json (test.Parse itr.json)))
  simp only [BenchStringifyBody, World.fprintf_fp, World.fprintf_clock, World.printTiming_fp,
    World.printTiming_clock, World.call_fp, World.call_clock, World.printf_fp,
    World.printf_clock, h1, h2, h3, and_self]

theorem BenchPrettify_fp {D : Type} [LinearOrder D] (test : TestBase) (timer : Nat → D)
    (DBL_MAX : D) (gTestJsons : TestJsonList) (w : World D) :
    (BenchPrettify test timer DBL_MAX gTestJsons w).fp =
        w.fp ++ rowsFrom "Stringify" test.GetName timer DBL_MAX w.clock gTestJsons ∧
      (BenchPrettify test timer DBL_MAX gTestJsons w).clock =
        w.clock + cTrialCount * gTestJsons.length := by
  apply benchLoop
  intro w itr
  obtain ⟨h1, h2, h3⟩ := iterate_trial timer
    (BenchPrettifyTrial test timer (test.Parse itr.json))
    (fun s => ⟨rfl, rfl, rfl⟩) cTrialCount
    (DBL_MAX, (w.printf ("Prettify  " ++ fmtLeft20 itr.filename ++ " ... ")).call
      (Call.Parse 204 test.GetName itr.json (test.Parse itr.json)))
  simp only [BenchPrettifyBody, World.fprintf_fp, World.fprintf_clock, World.printTiming_fp,
    World.printTiming_clock, World.call_fp, World.call_clock, World.printf_fp,
    World.printf_clock, h1, h2, h3, and_self]

theorem BenchStatistics_fp {D : Type} [LinearOrder D] (test : TestBase) (timer : Nat → D)
    (DBL_MAX : D) (gTestJsons : TestJsonList) (w : World D) :
    (BenchStatistics test timer DBL_MAX gTestJsons w).fp =
        w.fp ++ rowsFrom "Statistics" test.GetName timer DBL_MAX w.clock gTestJsons ∧
      (BenchStatistics test timer DBL_MAX gTestJsons w).clock =
        w.clock + cTrialCount * gTestJsons.length := by
  apply benchLoop
  intro w itr
  obtain ⟨h1, h2, h3⟩ := iterate_trial timer
    (BenchStatisticsTrial test timer (test.Parse itr.json))
    (fun s => ⟨rfl, rfl, rfl⟩) cTrialCount
    (DBL_MAX, (w.printf ("Statistics  " ++ fmtLeft20 itr.filename ++ " ... ")).call
      (Call.Parse 231 test.GetName itr.json (test.Parse itr.json)))
  simp only [BenchStatisticsBody, World.fprintf_fp, World.fprintf_clock, World.printTiming_fp,
    World.printTiming_clock, World.call_fp, World.call_clock, World.printf_fp,
    World.printf_clock, h1, h2, h3, and_self]

theorem rowsFrom_dropTime {D : Type} [LinearOrder D] (type library : String) (timer : Nat → D)
    (DBL_MAX : D) (c : Nat) (gTestJsons : TestJsonList) :
    (rowsFrom type library timer DBL_MAX c gTestJsons).map ReportLine.dropTime =
      gTestJsons.map (fun x => ReportLine.row type library x.filename ()) := by
  induction gTestJsons generalizing c with
  | nil => rfl
  | cons x rest ih => simp [rowsFrom, ih, ReportLine.dropTime]

theorem rowsFrom_getElem? {D : Type} [LinearOrder D] (type library : String) (timer : Nat → D)
    (DBL_MAX : D) (c : Nat) (gTestJsons : TestJsonList) (i : Nat) (hi : i < gTestJsons.length) :
    ((rowsFrom type library timer DBL_MAX c gTestJsons)[i]?).bind ReportLine.ms? =
      some (minOver timer DBL_MAX (c + cTrialCount * i) cTrialCount) := by
  induction gTestJsons generalizing c i with
  | nil => simp at hi
  | cons x rest ih =>
    cases i with
    | zero => simp [rowsFrom, ReportLine.ms?]
    | succ i =>
      have h := ih (c + cTrialCount) i (by simpa using hi)
      have e : c + cTrialCount + cTrialCount * i = c + cTrialCount * (i + 1) := by
        rw [Nat.mul_add]; omega
      rw [e] at h
      simpa [rowsFrom] using h


theorem written_eq {D : Type} (step : World D → World D) (w : World D)
    (rows : List (ReportLine D)) (h : (step w).fp = w.fp ++ rows) : written step w = rows := by
  rw [written, h, List.drop_left]

theorem Bench_fp {D : Type} [LinearOrder D] (test : TestBase) (timer : Nat → D)
    (DBL_MAX : D) (gTestJsons : TestJsonList) (w : World D) :
    (Bench test timer DBL_MAX gTestJsons w).fp = w.fp ++
      (rowsFrom "Parse" test.GetName timer DBL_MAX w.clock gTestJsons ++
        rowsFrom "Stringify" test.GetName timer DBL_MAX
          (w.clock + cTrialCount * gTestJsons.length) gTestJsons ++
        rowsFrom "Stringify" test.GetName timer DBL_MAX
          (w.clock + cTrialCount * gTestJsons.length + cTrialCount * gTestJsons.length)
          gTestJsons ++
        rowsFrom "Statistics" test.GetName timer DBL_MAX
          (w.clock + cTrialCount * gTestJsons.length + cTrialCount * gTestJsons.length +
            cTrialCount * gTestJsons.length) gTestJsons) := by
  simp only [Bench, World.printf_fp, (BenchStatistics_fp _ _ _ _ _).1,
    (BenchPrettify_fp _ _ _ _ _).1, (BenchPrettify_fp _ _ _ _ _).2,
    (BenchStringify_fp _ _ _ _ _).1, (BenchStringify_fp _ _ _ _ _).2,
    (BenchParse_fp _ _ _ _ _).1, (BenchParse_fp _ _ _ _ _).2, World.printf_clock,
    List.append_assoc]

theorem BenchLoop_dropTime {D : Type} [LinearOrder D] (tests : TestList) (timer : Nat → D)
    (DBL_MAX : D) (gTestJsons : TestJsonList) (w : World D) :
    (tests.foldl (fun w itr => Bench itr.pointee timer DBL_MAX gTestJsons w) w).fp.map
        ReportLine.dropTime =
      w.fp.map ReportLine.dropTime ++ tests.flatMap fun t =>
        gTestJsons.map (fun x => ReportLine.row "Parse" t.pointee.GetName x.filename ()) ++
        gTestJsons.map (fun x => ReportLine.row "Stringify" t.pointee.GetName x.filename ()) ++
        gTestJsons.map (fun x => ReportLine.row "Stringify" t.pointee.GetName x.filename ()) ++
        gTestJsons.map (fun x => ReportLine.row "Statistics" t.pointee.GetName x.filename ()) := by
  induction tests generalizing w with
  | nil => simp
  | cons t rest ih =>
    rw [List.foldl_cons, ih, Bench_fp]
    simp [rowsFrom_dropTime]

theorem BenchAll_dropTime {D : Type} [LinearOrder D] (tests : TestList) (timer : Nat → D)
    (DBL_MAX : D) (gTestJsons : TestJsonList) (w : World D) :
    (BenchAll tests timer DBL_MAX gTestJsons w).fp.map ReportLine.dropTime =
      ReportLine.header "Type,Library,Filename,Time(ms)\n" :: tests.flatMap fun t =>
        gTestJsons.map (fun x => ReportLine.row "Parse" t.pointee.GetName x.filename ()) ++
        gTestJsons.map (fun x => ReportLine.row "Stringify" t.pointee.GetName x.filename ()) ++
        gTestJsons.map (fun x => ReportLine.row "Stringify" t.pointee.GetName x.filename ()) ++
        gTestJsons.map (fun x => ReportLine.row "Statistics" t.pointee.GetName x.filename ()) := by
  simp only [BenchAll, World.printf_fp, BenchLoop_dropTime]
  simp [World.fprintf, ReportLine.dropTime]

/-- C3: when every timer reading is at most `DBL_MAX`, each of the four benchmark
functions reports for each corpus entry a time that is one of the `cTrialCount`
samples of that entry's trials and is at most every one of them. -/
theorem minDuration_is_smallest_trial_sample {D : Type} [LinearOrder D] (test : TestBase)
    (timer : Nat → D) (DBL_MAX : D) (gTestJsons : TestJsonList) (w : World D) (i : Nat)
    (hmax : ∀ k, timer k ≤ DBL_MAX) (hi : i < gTestJsons.length) :
    ReportsSmallestSample BenchParse test timer DBL_MAX gTestJsons w i ∧
    ReportsSmallestSample BenchStringify test timer DBL_MAX gTestJsons w i ∧
    ReportsSmallestSample BenchPrettify test timer DBL_MAX gTestJsons w i ∧
    ReportsSmallestSample BenchStatistics test timer DBL_MAX gTestJsons w i := by
  have key : ∀ (type : String)
      (bench : TestBase → (Nat → D) → D → TestJsonList → World D → World D),
      (bench test timer DBL_MAX gTestJsons w).fp =
        w.fp ++ rowsFrom type test.GetName timer DBL_MAX w.clock gTestJsons →
      ReportsSmallestSample bench test timer DBL_MAX gTestJsons w i := by
    intro type bench h
    refine ⟨minOver timer DBL_MAX (w.clock + cTrialCount * i) cTrialCount, ?_,
      minOver_mem_samples timer DBL_MAX hmax _, minOver_le_samples timer DBL_MAX _⟩
    rw [written_eq _ _ _ h, rowsFrom_getElem? _ _ _ _ _ _ _ hi]
  exact ⟨key _ _ (BenchParse_fp _ _ _ _ _).1, key _ _ (BenchStringify_fp _ _ _ _ _).1,
    key _ _ (BenchPrettify_fp _ _ _ _ _).1, key _ _ (BenchStatistics_fp _ _ _ _ _).1⟩

/-- C3, at a concrete input: the backend `demoTest "lib"`, the one-entry corpus
`goodCorpus`, the readings of `demoTimer`, entry 0. -/
theorem minDuration_is_smallest_trial_sample_witness :
    (∀ k, demoTimer k ≤ demoMax) ∧ 0 < goodCorpus.length ∧
    (ReportsSmallestSample BenchParse (demoTest "lib") demoTimer demoMax goodCorpus
        World.init 0 ∧
      ReportsSmallestSample BenchStringify (demoTest "lib") demoTimer demoMax goodCorpus
        World.init 0 ∧
      ReportsSmallestSample BenchPrettify (demoTest "lib") demoTimer demoMax goodCorpus
        World.init 0 ∧
      ReportsSmallestSample BenchStatistics (demoTest "lib") demoTimer demoMax goodCorpus
        World.init 0) :=
  have hmax : ∀ k, demoTimer k ≤ demoMax := by
    intro k
    unfold demoTimer demoMax
    split <;> omega
  ⟨hmax, by decide,
    minDuration_is_smallest_trial_sample (demoTest "lib") demoTimer demoMax goodCorpus
      World.init 0 hmax (by decide)⟩

/-- C9: two runs of `BenchAll` over the same backends and the same corpus, with any
two timers (and any two bounds and starting worlds), write report files of the same
length whose lines agree, position by position, in everything but the time. -/
theorem BenchAll_report_order_is_stable {D : Type} [LinearOrder D] (tests : TestList)
    (gTestJsons : TestJsonList) (timer1 timer2 : Nat → D) (max1 max2 : D)
    (w1 w2 : World D) :
    (BenchAll tests timer1 max1 gTestJsons w1).fp.length =
        (BenchAll tests timer2 max2 gTestJsons w2).fp.length ∧
      (BenchAll tests timer1 max1 gTestJsons w1).fp.map ReportLine.dropTime =
        (BenchAll tests timer2 max2 gTestJsons w2).fp.map ReportLine.dropTime := by
  have h : (BenchAll tests timer1 max1 gTestJsons w1).fp.map ReportLine.dropTime =
      (BenchAll tests timer2 max2 gTestJsons w2).fp.map ReportLine.dropTime := by
    rw [BenchAll_dropTime, BenchAll_dropTime]
  refine ⟨?_, h⟩
  have hl := congrArg List.length h
  simpa using hl

/-! ## The code at the inputs where it departs from the specification -/

set_option maxRecDepth 16384

/-- C2: with the lossy backend `"mm"`, the corpus whose first entry `sub/x.json`
ends in a round-trip mismatch, and no subdirectory to write the diagnostic file
`mm_sub/x.json` into, `Verify` is killed in its first turn: it makes one first parse
only, the second entry is never parsed and no verdict is printed; `VerifyAll` never
reaches the second backend, and `main` writes no report.  Where the file can be
opened the sweep goes through both entries and both backends. -/
theorem Verify_is_killed_by_unopened_diagnostic_file :
    firstParses (Verify noSubdirectory (lossyTest "mm") nestedCorpus
        (World.init : World Nat)).calls = [("mm", "[1]")] ∧
      (Verify noSubdirectory (lossyTest "mm") nestedCorpus
        (World.init : World Nat)).killed = true ∧
      (Verify noSubdirectory (lossyTest "mm") nestedCorpus
        (World.init : World Nat)).out.getLast? = some (Out.text "\n") ∧
      firstParses (VerifyAll noSubdirectory lossyRegistry nestedCorpus
        (World.init : World Nat)).calls = [("mm", "[1]")] ∧
      (main noSubdirectory lossyRegistry demoTimer demoMax nestedCorpus).fp = [] ∧
      firstParses (VerifyAll everyFileOpens lossyRegistry nestedCorpus
        (World.init : World Nat)).calls =
        [("mm", "[1]"), ("mm", "\x7b\x7d"), ("ok", "[1]"), ("ok", "\x7b\x7d")] := by
  refine ⟨?_, ?_, ?_, ?_, ?_, ?_⟩ <;> decide

/-- C5: for the backend `demoTest "lib"` and the one-entry corpus `goodCorpus`,
`BenchPrettify` calls `Prettify` in its trials and writes its line with the
operation kind `"Stringify"`; the four lines of `Bench` carry three kinds only,
`"Stringify"` twice and no kind of its own for the prettify timing. -/
theorem BenchPrettify_writes_kind_Stringify :
    Call.Prettify 209 "lib" (some 1) (some "\x7b\n\x7d") ∈
        (BenchPrettify (demoTest "lib") demoTimer demoMax goodCorpus World.init).calls ∧
      (BenchPrettify (demoTest "lib") demoTimer demoMax goodCorpus World.init).fp =
        [ReportLine.row "Stringify" "lib" "empty.json" 3] ∧
      (Bench (demoTest "lib") demoTimer demoMax goodCorpus World.init).fp.map
          ReportLine.type? =
        [some "Parse", some "Stringify", some "Stringify", some "Statistics"] := by
  decide

/-- C6: with backend `"a"` registered at address 200 and backend `"b"` at address
100, `main` visits `"b"` before `"a"` in the verification phase (the first parses)
and in the benchmark phase (the report lines), although `"b"` does not precede
`"a"` in the order of the names. -/
theorem main_visits_backends_in_address_order :
    firstParses (main everyFileOpens demoRegistry demoTimer demoMax goodCorpus).calls =
        [("b", "\x7b\x7d"), ("a", "\x7b\x7d")] ∧
      (main everyFileOpens demoRegistry demoTimer demoMax goodCorpus).fp.map ReportLine.library? =
        [none, some "b", some "b", some "b", some "b", some "a", some "a", some "a",
          some "a"] ∧
      ¬ ("b".toList ≤ "a".toList) := by
  refine ⟨?_, ?_, ?_⟩ <;> decide

/-- C7: for a backend whose parse of the truncated entry fails, `BenchStringify`
calls `Stringify` on the null handle in each of its ten trials and writes a report
line for the entry; `BenchPrettify` and `BenchStatistics` do the same with
`Prettify` and `Statistics`. -/
theorem BenchStringify_runs_on_null_handle :
    (BenchStringify (demoTest "lib") demoTimer demoMax truncatedCorpus World.init).calls =
        Call.Parse 177 "lib" "\x7b\"a\":" none ::
          (List.replicate 10 (Call.Stringify 182 "lib" none none) ++
            [Call.Free 190 "lib" none]) ∧
      (BenchStringify (demoTest "lib") demoTimer demoMax truncatedCorpus World.init).fp =
        [ReportLine.row "Stringify" "lib" "trunc.json" 3] ∧
      (BenchPrettify (demoTest "lib") demoTimer demoMax truncatedCorpus World.init).calls =
        Call.Parse 204 "lib" "\x7b\"a\":" none ::
          (List.replicate 10 (Call.Prettify 209 "lib" none none) ++
            [Call.Free 217 "lib" none]) ∧
      (BenchPrettify (demoTest "lib") demoTimer demoMax truncatedCorpus World.init).fp =
        [ReportLine.row "Stringify" "lib" "trunc.json" 3] ∧
      (BenchStatistics (demoTest "lib") demoTimer demoMax truncatedCorpus World.init).calls =
        Call.Parse 231 "lib" "\x7b\"a\":" none ::
          (List.replicate 10 (Call.Statistics 236 "lib" none statZero) ++
            [Call.Free 243 "lib" none]) ∧
      (BenchStatistics (demoTest "lib") demoTimer demoMax truncatedCorpus World.init).fp =
        [ReportLine.row "Statistics" "lib" "trunc.json" 3] := by
  decide

/-- C8: for a backend whose parse of the truncated entry fails, every trial of
`BenchParse` passes the null handle to `Free`, and the handle discipline is broken
by the calls of `BenchParse` while it is kept by those of `Verify`. -/
theorem BenchParse_frees_null_handle :
    (BenchParse (demoTest "lib") demoTimer demoMax truncatedCorpus World.init).calls =
        (List.replicate 10
          [Call.Parse 158 "lib" "\x7b\"a\":" none, Call.Free 161 "lib" none]).flatten ∧
      handleRun []
          (BenchParse (demoTest "lib") demoTimer demoMax truncatedCorpus World.init).calls =
        none ∧
      handleRun []
          (Verify everyFileOpens (demoTest "lib") truncatedCorpus
            (World.init : World Nat)).calls =
        some [] := by
  decide

end NativeJson
